import Mathlib

/-!
Verification development for the legal-document analysis core of `app.py`
(LDS_AI). Python strings are modelled as `List Char`; each analysis
function of the source is embedded as an executable Lean definition.
The linguistic-model ("spaCy") processing path depends on an external
pretrained model; those functions are parametrised by the model's output
(sentence list, token list, or entity-span list), while the fallback path
is embedded concretely from the source.
-/

/-- Python strings, modelled as lists of characters. -/
abbrev Str := List Char

/-- Character-wise lowercasing, modelling Python `str.lower()` on the
ASCII texts this program handles. -/
def pyLower (s : Str) : Str := s.map Char.toLower

/-- Modelling Python `str.strip()`: remove leading and trailing
whitespace. -/
def pyStrip (s : Str) : Str :=
  (((s.dropWhile Char.isWhitespace).reverse).dropWhile Char.isWhitespace).reverse

/-- Python's `needle in hay` substring test. -/
def pyContains (hay needle : Str) : Bool := decide (needle <:+: hay)

/-- The separator class of `re.split(r'[.!?]+', text)` (app.py lines 39,
51): sentence-terminal punctuation. -/
def isPunctChar (c : Char) : Bool := c == '.' || c == '!' || c == '?'

/-- Split a list at maximal nonempty runs of separator characters,
keeping the (possibly empty) pieces between runs: the semantics of
Python `re.split` with a one-character-class-plus pattern. -/
def splitRuns (p : Char → Bool) : List Char → List (List Char)
  | [] => [[]]
  | c :: cs =>
    let r := splitRuns p cs
    if p c then
      match cs with
      | [] => [] :: r
      | c₂ :: _ => if p c₂ then r else [] :: r
    else
      match r with
      | [] => [[c]]
      | h :: t => (c :: h) :: t

/-- `re.split(r'[.!?]+', text)` as used by the fallback sentence
splitter (app.py lines 39 and 51). -/
def re_split_sentences (text : Str) : List Str := splitRuns isPunctChar text

/-- The qualifying-sentence pipeline shared (by textual duplication in
the source) between `extract_key_clauses` and `summarize_text` in
fallback mode: split on punctuation runs, strip each piece, keep the
pieces whose stripped length exceeds 10. -/
def fallbackSentences (text : Str) : List Str :=
  ((re_split_sentences text).filter (fun s => decide (10 < (pyStrip s).length))).map pyStrip

/-- app.py lines 36-41, fallback branch of `extract_key_clauses`. -/
def extract_key_clauses_fallback (text : Str) : List Str :=
  let sentences := re_split_sentences text
  let clauses := (sentences.filter (fun s => decide (10 < (pyStrip s).length))).map pyStrip
  clauses.take 10

/-- app.py lines 42-46, model branch of `extract_key_clauses`,
parametrised by the external model's sentence texts `sents` and its
`len(sentence)` measure `sentLen` (for spaCy a token count, in any case
computed on the unstripped sentence object). -/
def extract_key_clauses_model (sents : List Str) (sentLen : Str → Nat) : List Str :=
  ((sents.filter (fun s => decide (10 < sentLen s))).map pyStrip).take 10

/-- app.py lines 48-53, fallback branch of `summarize_text`: join the
first `num_sentences` qualifying sentences with ". ". -/
def summarize_text_fallback (text : Str) (num_sentences : Nat) : Str :=
  let sentences := re_split_sentences text
  let sentences2 := (sentences.filter (fun s => decide (10 < (pyStrip s).length))).map pyStrip
  List.intercalate (". ".toList) (sentences2.take num_sentences)

/-- The Python signature `summarize_text(text, num_sentences=5)` applied
with its default count. -/
def summarize_text_fallback_default (text : Str) : Str :=
  summarize_text_fallback text 5

/-- app.py lines 22-25: the fixed risk vocabulary. -/
def RISK_WORDS : List Str :=
  ["fraud".toList, "penalty".toList, "violation".toList, "risk".toList,
   "lawsuit".toList, "breach".toList, "noncompliance".toList,
   "litigation".toList, "regulatory".toList, "fine".toList]

/-- app.py lines 62-66, fallback branch of `detect_risks`: the risk
words contained in the lowercased text, as a deduplicated list
(Python wraps the comprehension in `set`). -/
def detect_risks_fallback (text : Str) : List Str :=
  let tl := pyLower text
  (RISK_WORDS.filter (fun w => pyContains tl w)).dedup

/-- app.py lines 67-69, model branch of `detect_risks`, parametrised by
the token texts the external model produces for the lowercased input:
keeps tokens that are risk words, deduplicated via `set`. -/
def detect_risks_model (tokens : List Str) : List Str :=
  (tokens.filter (fun t => RISK_WORDS.contains t)).dedup

/-- app.py lines 115-136: `check_compliance`. Five rules over the
lowercased text, each appending its fixed message when the required
phrases are absent, in source order. -/
def check_compliance (text : Str) : List String :=
  let tl := pyLower text
  (if !(pyContains tl "governing law".toList) && !(pyContains tl "jurisdiction".toList)
    then ["Missing governing law or jurisdiction clause"] else []) ++
  (if !(pyContains tl "termination".toList)
    then ["No termination clause found"] else []) ++
  (if !(pyContains tl "confidential".toList) && !(pyContains tl "proprietary".toList)
    then ["No confidentiality or proprietary information clause"] else []) ++
  (if !(pyContains tl "liability".toList)
    then ["Liability terms not clearly defined"] else []) ++
  (if !(pyContains tl "signature".toList) && !(pyContains tl "signed".toList)
    then ["Document may lack proper signature requirements"] else [])

/-- The compliance rules as ordered data: for each rule, the condition
on the lowercased text under which its fixed message is emitted. -/
def complianceRules : List ((Str → Bool) × String) :=
  [(fun tl => !(pyContains tl "governing law".toList) && !(pyContains tl "jurisdiction".toList),
    "Missing governing law or jurisdiction clause"),
   (fun tl => !(pyContains tl "termination".toList),
    "No termination clause found"),
   (fun tl => !(pyContains tl "confidential".toList) && !(pyContains tl "proprietary".toList),
    "No confidentiality or proprietary information clause"),
   (fun tl => !(pyContains tl "liability".toList),
    "Liability terms not clearly defined"),
   (fun tl => !(pyContains tl "signature".toList) && !(pyContains tl "signed".toList),
    "Document may lack proper signature requirements")]

/-- Spec-shaped compliance checker: evaluate the five rules in their
fixed order on the lowercased text, collecting the messages of the
rules whose condition holds. -/
def check_compliance_spec (text : Str) : List String :=
  complianceRules.filterMap
    (fun r => if r.1 (pyLower text) then some r.2 else none)

/-- Python regex word character `\w` (ASCII view): letters, digits,
underscore. -/
def isWordChar (c : Char) : Bool := c.isAlphanum || c == '_'

/-- Whether the position after an optional character `c` is a `\b`
boundary when the neighbouring matched character is a word character:
holds at text ends and next to non-word characters. -/
def notWordOpt : Option Char → Bool
  | none => true
  | some c => !(isWordChar c)

/-- First alternative of the date pattern
`\b\d{1,2}[slash-dash]\d{1,2}[slash-dash]\d{2,4}\b` (app.py line 85). The pattern is
deterministic: every quantifier is followed by a character class
disjoint from digits, so the maximal digit run either fits the counted
repetition or the alternative fails. -/
def dateBranch1 (prev : Option Char) (xs : Str) : Option (Str × Str) :=
  if notWordOpt prev then
    let d1 := xs.takeWhile Char.isDigit
    let r1 := xs.dropWhile Char.isDigit
    if d1.length == 1 || d1.length == 2 then
      match r1 with
      | s1 :: r2 =>
        if s1 == '/' || s1 == '-' then
          let d2 := r2.takeWhile Char.isDigit
          let r3 := r2.dropWhile Char.isDigit
          if d2.length == 1 || d2.length == 2 then
            match r3 with
            | s2 :: r4 =>
              if s2 == '/' || s2 == '-' then
                let d3 := r4.takeWhile Char.isDigit
                let r5 := r4.dropWhile Char.isDigit
                if (decide (2 ≤ d3.length) && decide (d3.length ≤ 4)) && notWordOpt r5.head? then
                  some (d1 ++ s1 :: (d2 ++ s2 :: d3), r5)
                else none
              else none
            | [] => none
          else none
        else none
      | [] => none
    else none
  else none

/-- Second alternative of the date pattern, `\b\d{4}\b`: a bare
four-digit run with word boundaries on both sides. -/
def dateBranch2 (prev : Option Char) (xs : Str) : Option (Str × Str) :=
  if notWordOpt prev then
    let d := xs.takeWhile Char.isDigit
    let r := xs.dropWhile Char.isDigit
    if d.length == 4 && notWordOpt r.head? then some (d, r) else none
  else none

/-- Try the date alternatives in the pattern's order at one position. -/
def dateMatchAt (prev : Option Char) (xs : Str) : Option (Str × Str) :=
  (dateBranch1 prev xs).orElse (fun _ => dateBranch2 prev xs)

/-- `re.findall` scanning: try a match at each position left to right,
emit non-overlapping matches, resume after each match.  `prev` carries
the character before the current position for `\b` tests; the fuel is
the remaining text length (every emitted match consumes at least one
character, so the fuel never runs out on these patterns). -/
def reScan (matchAt : Option Char → Str → Option (Str × Str)) :
    Nat → Option Char → Str → List Str
  | 0, _, _ => []
  | _ + 1, _, [] => []
  | fuel + 1, prev, c :: rest =>
    match matchAt prev (c :: rest) with
    | some (m, rest') => m :: reScan matchAt fuel m.getLast? rest'
    | none => reScan matchAt fuel (some c) rest

/-- `re.findall(date_pattern, text)` of app.py line 86. -/
def re_findall_date (text : Str) : List Str :=
  reScan dateMatchAt text.length none text

/-- Greedy `(?:,\d{3})*`: consume repetitions of a comma followed by
exactly three digits, returning (consumed, rest). -/
def starCommaD3 : Str → Str × Str
  | ',' :: a :: b :: c :: rest =>
    if a.isDigit && b.isDigit && c.isDigit then
      let pr := starCommaD3 rest
      (',' :: a :: b :: c :: pr.1, pr.2)
    else ([], ',' :: a :: b :: c :: rest)
  | xs => ([], xs)

/-- Greedy `(?:\.\d{2})?`: consume a dot followed by exactly two digits
when present, returning (consumed, rest). -/
def optDotD2 : Str → Str × Str
  | '.' :: a :: b :: rest =>
    if a.isDigit && b.isDigit then (['.', a, b], rest)
    else ([], '.' :: a :: b :: rest)
  | xs => ([], xs)

/-- Case-insensitive literal match: consume the characters of `pat`
(given lowercase) from the input, returning the consumed original
characters and the rest. -/
def ciTake : Str → Str → Option (Str × Str)
  | [], xs => some ([], xs)
  | _ :: _, [] => none
  | p :: ps, x :: xs =>
    if x.toLower == p then (ciTake ps xs).map (fun pr => (x :: pr.1, pr.2))
    else none

/-- The currency-word alternation `(?:USD|dollars?|cents?)` of the money
pattern, under `re.IGNORECASE`, alternatives tried in order with the
optional `s` taken greedily. -/
def matchCurrency (xs : Str) : Option (Str × Str) :=
  match ciTake "usd".toList xs with
  | some r => some r
  | none =>
    match ciTake "dollar".toList xs with
    | some (cons, rest) =>
      match rest with
      | s :: rest' => if s.toLower == 's' then some (cons ++ [s], rest') else some (cons, rest)
      | [] => some (cons, [])
    | none =>
      match ciTake "cent".toList xs with
      | some (cons, rest) =>
        match rest with
        | s :: rest' => if s.toLower == 's' then some (cons ++ [s], rest') else some (cons, rest)
        | [] => some (cons, [])
      | none => none

/-- First alternative of the money pattern (app.py line 89):
`\$\d+(?:,\d{3})*(?:\.\d{2})?`. -/
def moneyBranch1 (xs : Str) : Option (Str × Str) :=
  match xs with
  | '$' :: r1 =>
    let d := r1.takeWhile Char.isDigit
    let r2 := r1.dropWhile Char.isDigit
    if d.isEmpty then none
    else
      let sc := starCommaD3 r2
      let od := optDotD2 sc.2
      some ('$' :: (d ++ sc.1 ++ od.1), od.2)
  | _ => none

/-- Second alternative of the money pattern:
`\d+(?:,\d{3})*(?:\.\d{2})?\s*(?:USD|dollars?|cents?)`, case
insensitive. -/
def moneyBranch2 (xs : Str) : Option (Str × Str) :=
  let d := xs.takeWhile Char.isDigit
  let r2 := xs.dropWhile Char.isDigit
  if d.isEmpty then none
  else
    let sc := starCommaD3 r2
    let od := optDotD2 sc.2
    let sp := od.2.takeWhile Char.isWhitespace
    let r5 := od.2.dropWhile Char.isWhitespace
    match matchCurrency r5 with
    | some (cur, rest) => some (d ++ sc.1 ++ od.1 ++ sp ++ cur, rest)
    | none => none

/-- Try the money alternatives in the pattern's order at one position;
the money pattern has no `\b`, so the previous character is unused. -/
def moneyMatchAt (_ : Option Char) (xs : Str) : Option (Str × Str) :=
  (moneyBranch1 xs).orElse (fun _ => moneyBranch2 xs)

/-- `re.findall(money_pattern, text, re.IGNORECASE)` of app.py line 90. -/
def re_findall_money (text : Str) : List Str :=
  reScan moneyMatchAt text.length none text

/-- app.py line 93: the fixed legal-term vocabulary of fallback entity
extraction. -/
def legal_terms_list : List Str :=
  ["contract".toList, "agreement".toList, "liability".toList,
   "indemnity".toList, "warranty".toList, "termination".toList,
   "jurisdiction".toList, "governing law".toList]

/-- The entity bucket map of `extract_legal_entities` (app.py lines
72-78). -/
structure Entities where
  PERSONS : List Str
  ORGANIZATIONS : List Str
  DATES : List Str
  MONETARY : List Str
  LEGAL_TERMS : List Str
deriving DecidableEq

/-- app.py line 111: `list(set(entities[key]))[:10]` for one bucket. -/
def dedupCap (l : List Str) : List Str := l.dedup.take 10

/-- app.py lines 109-111: deduplicate every bucket and cap it at 10
entries. -/
def postprocessEntities (e : Entities) : Entities :=
  { PERSONS := dedupCap e.PERSONS
    ORGANIZATIONS := dedupCap e.ORGANIZATIONS
    DATES := dedupCap e.DATES
    MONETARY := dedupCap e.MONETARY
    LEGAL_TERMS := dedupCap e.LEGAL_TERMS }

/-- app.py lines 71-95 and 109-113: fallback branch of
`extract_legal_entities` followed by the shared post-processing. -/
def extract_legal_entities_fallback (text : Str) : Entities :=
  postprocessEntities
    { PERSONS := []
      ORGANIZATIONS := []
      DATES := (re_findall_date text).dedup
      MONETARY := (re_findall_money text).dedup
      LEGAL_TERMS :=
        (let tl := pyLower text
         legal_terms_list.filter (fun t => pyContains tl t)) }

/-- app.py lines 97-113: model branch of `extract_legal_entities`,
parametrised by the labelled entity spans the external model detects,
followed by the shared post-processing; LEGAL_TERMS stays empty in this
mode. -/
def extract_legal_entities_model (ents : List (String × Str)) : Entities :=
  postprocessEntities
    { PERSONS := (ents.filter (fun e => e.1 == "PERSON")).map Prod.snd
      ORGANIZATIONS := (ents.filter (fun e => e.1 == "ORG")).map Prod.snd
      DATES := (ents.filter (fun e => e.1 == "DATE")).map Prod.snd
      MONETARY := (ents.filter (fun e => e.1 == "MONEY")).map Prod.snd
      LEGAL_TERMS := [] }

/-- The concrete test text of the specification's entity-extraction
example. -/
def testText : Str :=
  ("This is a test contract. It was signed on 01/02/2020 for $500.00. Governing law is California. Termination occurs in jurisdiction X. Liability is limited. Confidential information is protected.").toList

section Lemmas

lemma pyContains_iff (hay needle : Str) : pyContains hay needle = true ↔ needle <:+: hay := by
  simp [pyContains]

lemma pyLower_infix_of {u t : Str} (h : u <:+: t) : pyLower u <:+: pyLower t := by
  obtain ⟨s, r, rfl⟩ := h
  exact ⟨pyLower s, pyLower r, by simp [pyLower]⟩

lemma pyStrip_eq (s : Str) :
    pyStrip s = List.rdropWhile Char.isWhitespace (s.dropWhile Char.isWhitespace) := rfl

lemma dropWhile_rdropWhile_dropWhile (l : Str) :
    List.dropWhile Char.isWhitespace
        (List.rdropWhile Char.isWhitespace (l.dropWhile Char.isWhitespace)) =
      List.rdropWhile Char.isWhitespace (l.dropWhile Char.isWhitespace) := by
  set w := Char.isWhitespace with hw
  match hz : List.rdropWhile w (l.dropWhile w) with
  | [] => simp
  | a :: z' =>
    obtain ⟨t, ht⟩ := List.rdropWhile_prefix w (l.dropWhile w)
    rw [hz] at ht
    have hy : l.dropWhile w = a :: (z' ++ t) := by rw [← ht]; simp
    have hpos : 0 < (l.dropWhile w).length := by rw [hy]; simp
    have hna : ¬ (w ((l.dropWhile w).get ⟨0, hpos⟩) = true) :=
      List.dropWhile_get_zero_not w l hpos
    have ha : (l.dropWhile w).get ⟨0, hpos⟩ = a := by
      simp [hy]
    rw [ha] at hna
    rw [List.dropWhile_cons]
    simp [hna]

lemma pyStrip_idem (s : Str) : pyStrip (pyStrip s) = pyStrip s := by
  rw [pyStrip_eq s, pyStrip_eq, dropWhile_rdropWhile_dropWhile,
    List.rdropWhile_idempotent]

lemma dedupCap_nodup (l : List Str) : (dedupCap l).Nodup :=
  (List.nodup_dedup l).sublist (List.take_sublist 10 l.dedup)

lemma dedupCap_len (l : List Str) : (dedupCap l).length ≤ 10 :=
  List.length_take_le 10 l.dedup

end Lemmas

/-- Claim C3: `check_compliance` is exactly the ordered evaluation of the
five fixed substring rules on the lowercased text; on the empty string it
returns all five issue messages in order, and on any text containing
"governing law", "termination", "confidential", "liability" and
"signature" it returns the empty list. -/
theorem claim_C3_compliance_rules :
    (∀ text : Str, check_compliance text = check_compliance_spec text) ∧
    check_compliance [] =
      ["Missing governing law or jurisdiction clause",
       "No termination clause found",
       "No confidentiality or proprietary information clause",
       "Liability terms not clearly defined",
       "Document may lack proper signature requirements"] ∧
    (∀ text : Str,
      "governing law".toList <:+: text →
      "termination".toList <:+: text →
      "confidential".toList <:+: text →
      "liability".toList <:+: text →
      "signature".toList <:+: text →
      check_compliance text = []) := by
  refine ⟨fun text => ?_, by decide, fun text h1 h2 h3 h4 h5 => ?_⟩
  · simp only [check_compliance, check_compliance_spec, complianceRules,
      List.filterMap_cons, List.filterMap_nil]
    split_ifs <;> rfl
  · have g1 : pyContains (pyLower text) ("governing law".toList) = true := by
      rw [pyContains_iff]
      have := pyLower_infix_of h1
      rwa [show pyLower ("governing law".toList) = "governing law".toList by decide] at this
    have g2 : pyContains (pyLower text) ("termination".toList) = true := by
      rw [pyContains_iff]
      have := pyLower_infix_of h2
      rwa [show pyLower ("termination".toList) = "termination".toList by decide] at this
    have g3 : pyContains (pyLower text) ("confidential".toList) = true := by
      rw [pyContains_iff]
      have := pyLower_infix_of h3
      rwa [show pyLower ("confidential".toList) = "confidential".toList by decide] at this
    have g4 : pyContains (pyLower text) ("liability".toList) = true := by
      rw [pyContains_iff]
      have := pyLower_infix_of h4
      rwa [show pyLower ("liability".toList) = "liability".toList by decide] at this
    have g5 : pyContains (pyLower text) ("signature".toList) = true := by
      rw [pyContains_iff]
      have := pyLower_infix_of h5
      rwa [show pyLower ("signature".toList) = "signature".toList by decide] at this
    simp_all [check_compliance]

/-- Witness for C3: a concrete text containing all five phrases passes
all compliance checks, and the theorem applies to it. -/
theorem claim_C3_witness :
    check_compliance
      ("governing law termination confidential liability signature".toList) = [] :=
  claim_C3_compliance_rules.2.2 _ (by decide) (by decide) (by decide) (by decide) (by decide)

/-- Claim C9: `check_compliance` reads only the lowercased text, so two
texts with the same lowercasing get the same issue list. -/
theorem claim_C9_case_insensitive (t₁ t₂ : Str) (h : pyLower t₁ = pyLower t₂) :
    check_compliance t₁ = check_compliance t₂ := by
  unfold check_compliance
  rw [h]

/-- Witness for C9: a text and its uppercased form get identical issue
lists. -/
theorem claim_C9_witness :
    check_compliance ("LIABILITY And Termination".toList) =
      check_compliance ("liability and termination".toList) :=
  claim_C9_case_insensitive _ _ (by decide)

/-- Claim C5: fallback summarization joins the first `n` qualifying
sentences with ". " in document order; when fewer than `n` qualifying
sentences exist it joins all of them, and the Python default count is
5. -/
theorem claim_C5_summarize_fallback :
    (∀ (text : Str) (n : Nat),
      summarize_text_fallback text n =
        List.intercalate (". ".toList) ((fallbackSentences text).take n)) ∧
    (∀ (text : Str) (n : Nat), (fallbackSentences text).length ≤ n →
      summarize_text_fallback text n =
        List.intercalate (". ".toList) (fallbackSentences text)) ∧
    (∀ text : Str, summarize_text_fallback_default text = summarize_text_fallback text 5) := by
  refine ⟨fun text n => rfl, fun text n h => ?_, fun text => rfl⟩
  rw [show summarize_text_fallback text n =
        List.intercalate (". ".toList) ((fallbackSentences text).take n) from rfl,
    List.take_of_length_le h]

/-- Witness for C5: a one-sentence text with count 5 returns its single
qualifying sentence, unpadded. -/
theorem claim_C5_witness :
    summarize_text_fallback ("a single sentence without any terminator".toList) 5 =
      List.intercalate (". ".toList)
        (fallbackSentences ("a single sentence without any terminator".toList)) :=
  claim_C5_summarize_fallback.2.1 _ 5 (by decide)

/-- Claim C6: in fallback mode, `detect_risks` returns exactly the risk
vocabulary terms occurring as substrings of the lowercased text, and
returns the empty set when no term occurs. -/
theorem claim_C6_detect_risks_fallback :
    (∀ (text w : Str),
      w ∈ detect_risks_fallback text ↔ w ∈ RISK_WORDS ∧ w <:+: pyLower text) ∧
    (∀ text : Str, (∀ w ∈ RISK_WORDS, ¬ w <:+: pyLower text) →
      detect_risks_fallback text = []) := by
  constructor
  · intro text w
    simp [detect_risks_fallback, List.mem_dedup, List.mem_filter, pyContains]
  · intro text h
    have : RISK_WORDS.filter (fun w => pyContains (pyLower text) w) = [] := by
      rw [List.filter_eq_nil_iff]
      intro w hw
      simp only [pyContains, decide_eq_true_eq]
      exact h w hw
    simp [detect_risks_fallback, this]

/-- Witness for C6: a text containing no risk term yields the empty
result. -/
theorem claim_C6_witness :
    detect_risks_fallback ("hello world agreement".toList) = [] :=
  claim_C6_detect_risks_fallback.2 _ (by decide)

/-- Claim C8: `detect_risks` is deterministic on identical texts and
set-valued (its result list is duplicate-free), in fallback mode and,
for any token list the external model could produce, in model mode. -/
theorem claim_C8_detect_risks_deterministic (t₁ t₂ : Str) (h : t₁ = t₂) :
    detect_risks_fallback t₁ = detect_risks_fallback t₂ ∧
    (detect_risks_fallback t₁).Nodup ∧
    (∀ tokens : List Str, (detect_risks_model tokens).Nodup) := by
  subst h
  exact ⟨rfl, List.nodup_dedup _, fun tokens => List.nodup_dedup _⟩

/-- Witness for C8: two applications to the same concrete text agree. -/
theorem claim_C8_witness :
    detect_risks_fallback ("breach and penalty".toList) =
        detect_risks_fallback ("breach and penalty".toList) ∧
      (detect_risks_fallback ("breach and penalty".toList)).Nodup ∧
      (∀ tokens : List Str, (detect_risks_model tokens).Nodup) :=
  claim_C8_detect_risks_deterministic _ _ rfl

/-- Claim C10: in both modes every detected risk is a member of the
fixed 10-term risk vocabulary. -/
theorem claim_C10_risks_subset_vocab :
    (∀ (text w : Str), w ∈ detect_risks_fallback text → w ∈ RISK_WORDS) ∧
    (∀ (tokens : List Str) (w : Str), w ∈ detect_risks_model tokens → w ∈ RISK_WORDS) := by
  constructor
  · intro text w hw
    simp only [detect_risks_fallback, List.mem_dedup, List.mem_filter] at hw
    exact hw.1
  · intro tokens w hw
    simp only [detect_risks_model, List.mem_dedup, List.mem_filter] at hw
    simpa using hw.2

/-- Witness for C10: the detected term "fraud" is indeed in the
vocabulary. -/
theorem claim_C10_witness : ("fraud".toList) ∈ RISK_WORDS :=
  claim_C10_risks_subset_vocab.1 ("fraud was found".toList) _ (by decide)

/-- Claim C7: every bucket returned by `extract_legal_entities` is
duplicate-free and holds at most 10 entries, in fallback mode for every
text and in model mode for every entity-span list the external model
could produce. -/
theorem claim_C7_entity_buckets_capped :
    (∀ text : Str,
      ((extract_legal_entities_fallback text).PERSONS.Nodup ∧
        (extract_legal_entities_fallback text).PERSONS.length ≤ 10) ∧
      ((extract_legal_entities_fallback text).ORGANIZATIONS.Nodup ∧
        (extract_legal_entities_fallback text).ORGANIZATIONS.length ≤ 10) ∧
      ((extract_legal_entities_fallback text).DATES.Nodup ∧
        (extract_legal_entities_fallback text).DATES.length ≤ 10) ∧
      ((extract_legal_entities_fallback text).MONETARY.Nodup ∧
        (extract_legal_entities_fallback text).MONETARY.length ≤ 10) ∧
      ((extract_legal_entities_fallback text).LEGAL_TERMS.Nodup ∧
        (extract_legal_entities_fallback text).LEGAL_TERMS.length ≤ 10)) ∧
    (∀ ents : List (String × Str),
      ((extract_legal_entities_model ents).PERSONS.Nodup ∧
        (extract_legal_entities_model ents).PERSONS.length ≤ 10) ∧
      ((extract_legal_entities_model ents).ORGANIZATIONS.Nodup ∧
        (extract_legal_entities_model ents).ORGANIZATIONS.length ≤ 10) ∧
      ((extract_legal_entities_model ents).DATES.Nodup ∧
        (extract_legal_entities_model ents).DATES.length ≤ 10) ∧
      ((extract_legal_entities_model ents).MONETARY.Nodup ∧
        (extract_legal_entities_model ents).MONETARY.length ≤ 10) ∧
      ((extract_legal_entities_model ents).LEGAL_TERMS.Nodup ∧
        (extract_legal_entities_model ents).LEGAL_TERMS.length ≤ 10)) :=
  ⟨fun _ =>
    ⟨⟨dedupCap_nodup _, dedupCap_len _⟩, ⟨dedupCap_nodup _, dedupCap_len _⟩,
     ⟨dedupCap_nodup _, dedupCap_len _⟩, ⟨dedupCap_nodup _, dedupCap_len _⟩,
     ⟨dedupCap_nodup _, dedupCap_len _⟩⟩,
   fun _ =>
    ⟨⟨dedupCap_nodup _, dedupCap_len _⟩, ⟨dedupCap_nodup _, dedupCap_len _⟩,
     ⟨dedupCap_nodup _, dedupCap_len _⟩, ⟨dedupCap_nodup _, dedupCap_len _⟩,
     ⟨dedupCap_nodup _, dedupCap_len _⟩⟩⟩

set_option maxRecDepth 10000 in
set_option maxHeartbeats 4000000 in
/-- Counterexample to claim C1: on the specification's test text the
LEGAL_TERMS bucket does not contain "confidential" — the fallback
legal-term vocabulary (app.py line 93) has no such entry — so the
claimed bucket contents are not all present. -/
theorem claim_C1_counterexample :
    ¬ (("01/02/2020".toList ∈ (extract_legal_entities_fallback testText).DATES) ∧
       ("$500.00".toList ∈ (extract_legal_entities_fallback testText).MONETARY) ∧
       ("contract".toList ∈ (extract_legal_entities_fallback testText).LEGAL_TERMS) ∧
       ("liability".toList ∈ (extract_legal_entities_fallback testText).LEGAL_TERMS) ∧
       ("termination".toList ∈ (extract_legal_entities_fallback testText).LEGAL_TERMS) ∧
       ("jurisdiction".toList ∈ (extract_legal_entities_fallback testText).LEGAL_TERMS) ∧
       ("governing law".toList ∈ (extract_legal_entities_fallback testText).LEGAL_TERMS) ∧
       ("confidential".toList ∈ (extract_legal_entities_fallback testText).LEGAL_TERMS)) :=
  fun h => absurd h.2.2.2.2.2.2.2 (by decide)

set_option maxRecDepth 10000 in
set_option maxHeartbeats 4000000 in
/-- Claim C1 as amended: on the test text, fallback entity extraction
yields "01/02/2020" in DATES, "$500.00" in MONETARY, and "contract",
"liability", "termination", "jurisdiction" and "governing law" in
LEGAL_TERMS; "confidential" is absent from LEGAL_TERMS because it is
not in the 8-term fallback vocabulary. -/
theorem claim_C1_amended :
    ("01/02/2020".toList ∈ (extract_legal_entities_fallback testText).DATES) ∧
    ("$500.00".toList ∈ (extract_legal_entities_fallback testText).MONETARY) ∧
    ("contract".toList ∈ (extract_legal_entities_fallback testText).LEGAL_TERMS) ∧
    ("liability".toList ∈ (extract_legal_entities_fallback testText).LEGAL_TERMS) ∧
    ("termination".toList ∈ (extract_legal_entities_fallback testText).LEGAL_TERMS) ∧
    ("jurisdiction".toList ∈ (extract_legal_entities_fallback testText).LEGAL_TERMS) ∧
    ("governing law".toList ∈ (extract_legal_entities_fallback testText).LEGAL_TERMS) ∧
    ("confidential".toList ∉ (extract_legal_entities_fallback testText).LEGAL_TERMS) := by
  decide

/-- Counterexample to claim C2: in model mode the clause filter uses the
unstripped sentence-object length, so a sentence of length 11 that strips
to a single character is returned even though its trimmed length is not
greater than 10. -/
theorem claim_C2_counterexample :
    extract_key_clauses_model [("a          ".toList)] List.length = [("a".toList)] ∧
    ¬ (10 < (pyStrip ("a".toList)).length) := by
  decide

/-- Claim C2 as amended: in fallback mode `extract_key_clauses` returns
at most 10 clauses, each of trimmed length strictly greater than 10, in
document order (a sublist of the stripped pieces, equal to the first 10
qualifying sentences); in model mode the at-most-10 bound and document
order still hold for any model output, but the trimmed-length guarantee
does not (the filter there uses pre-trim sentence length). -/
theorem claim_C2_amended :
    (∀ text : Str,
      (extract_key_clauses_fallback text).length ≤ 10 ∧
      (∀ c ∈ extract_key_clauses_fallback text, 10 < (pyStrip c).length) ∧
      List.Sublist (extract_key_clauses_fallback text) ((re_split_sentences text).map pyStrip) ∧
      extract_key_clauses_fallback text = (fallbackSentences text).take 10) ∧
    (∀ (sents : List Str) (sentLen : Str → Nat),
      (extract_key_clauses_model sents sentLen).length ≤ 10 ∧
      List.Sublist (extract_key_clauses_model sents sentLen) (sents.map pyStrip)) := by
  constructor
  · intro text
    refine ⟨List.length_take_le _ _, ?_, ?_, rfl⟩
    · intro c hc
      have hc' : c ∈ fallbackSentences text := List.take_subset 10 _ hc
      simp only [fallbackSentences, List.mem_map, List.mem_filter,
        decide_eq_true_eq] at hc'
      obtain ⟨s, ⟨_, hlen⟩, rfl⟩ := hc'
      rw [pyStrip_idem]
      exact hlen
    · have h1 : List.Sublist (extract_key_clauses_fallback text) (fallbackSentences text) :=
        List.take_sublist 10 (fallbackSentences text)
      have h2 : List.Sublist (fallbackSentences text) ((re_split_sentences text).map pyStrip) :=
        (List.filter_sublist (re_split_sentences text)).map pyStrip
      exact h1.trans h2
  · intro sents sentLen
    exact ⟨List.length_take_le _ _,
      (List.take_sublist _ _).trans ((List.filter_sublist sents).map pyStrip)⟩

set_option maxRecDepth 10000 in
set_option maxHeartbeats 4000000 in
/-- Witness for C2 as amended: on the test text the first returned
clause, already stripped, has trimmed length above 10. -/
theorem claim_C2_witness :
    10 < (pyStrip ("This is a test contract".toList)).length :=
  (claim_C2_amended.1 testText).2.1 _ (by decide)

/-- Counterexample to claim C4: a piece whose trimmed length is exactly
10 is discarded by the fallback splitter, although the claim says every
trimmed piece of length at least 10 is kept. -/
theorem claim_C4_counterexample :
    ("abcdefghij".toList) ∈ re_split_sentences ("abcdefghij".toList) ∧
    10 ≤ (pyStrip ("abcdefghij".toList)).length ∧
    ("abcdefghij".toList) ∉ fallbackSentences ("abcdefghij".toList) := by
  decide

/-- Claim C4 as amended: the fallback splitter's output consists of
exactly the trimmed pieces of the punctuation-run split whose trimmed
length strictly exceeds 10 (pieces of trimmed length 10 or less,
including exactly 10, are discarded). -/
theorem claim_C4_amended (text : Str) (s : Str) :
    s ∈ fallbackSentences text ↔
      ∃ piece, piece ∈ re_split_sentences text ∧ pyStrip piece = s ∧ 10 < s.length := by
  simp only [fallbackSentences, List.mem_map, List.mem_filter, decide_eq_true_eq]
  constructor
  · rintro ⟨a, ⟨ha, hq⟩, rfl⟩
    exact ⟨a, ha, rfl, hq⟩
  · rintro ⟨a, ha, rfl, hq⟩
    exact ⟨a, ⟨ha, hq⟩, rfl⟩
